import Mathlib

/-!
Verification of the bidirectional streaming core of the strands agent SDK.

The development shallowly embeds:
* the connection-error classification and bounded reconnection protocol of
  the bidirectional event loop (module
  `strands/experimental/bidirectional_streaming/event_loop/bidirectional_event_loop.py`,
  absent from the source tree; only its unit tests and its callers are
  present, so those definitions are modelled from the specification), and
* the `BidirectionalAgent` facade
  (`strands/experimental/bidirectional_streaming/agent/agent.py`, present in
  the source tree and embedded directly from it).

Python exceptions are embedded as an explicit error type, raising as
`Except`, asynchronous queues as lists, and the facade's session record as
an `Option` field.
-/

namespace BidiStreaming

/-- Error taxonomy of the Python exceptions that the bidirectional streaming
code distinguishes: the three connection-class transport failures
(`ConnectionError`, `ConnectionResetError`, `BrokenPipeError`) and the two
application-level errors its tests exercise (`ValueError`, `RuntimeError`). -/
inductive BidiError where
  | connectionError (msg : String)
  | connectionResetError (msg : String)
  | brokenPipeError (msg : String)
  | valueError (msg : String)
  | runtimeError (msg : String)
deriving DecidableEq

/-- Modelled from the spec: `_is_reconnectable_error` of the missing module
`bidirectional_event_loop.py`. An error is reconnectable if and only if it
is a connection-class failure (connection lost, connection reset, broken
pipe, or equivalent transport-level disconnects); application-level errors
are never reconnectable. -/
def _is_reconnectable_error : BidiError → Bool
  | BidiError.connectionError _ => true
  | BidiError.connectionResetError _ => true
  | BidiError.brokenPipeError _ => true
  | BidiError.valueError _ => false
  | BidiError.runtimeError _ => false

/-- A conversation message, as appended to the agent's history. -/
structure Message where
  role : String
  content : String
deriving DecidableEq

/-- A tool specification record `\x7bname, description, input_schema\x7d`,
consumed opaquely by reconnection. -/
structure ToolSpec where
  name : String
  description : String
  input_schema : String
deriving DecidableEq

/-- The agent-held configuration read by the reconnection protocol:
system prompt, tool specs, message history and the two reconnection
settings `enable_reconnection` and `max_reconnection_attempts`. -/
structure AgentConfig where
  system_prompt : Option String
  tool_specs : List ToolSpec
  messages : List Message
  max_reconnection_attempts : Nat
  enable_reconnection : Bool

/-- The arguments of one `connect(system_prompt, tools, messages)` call on a
model session. -/
structure ConnectCall where
  system_prompt : Option String
  tools : List ToolSpec
  messages : List Message
deriving DecidableEq

/-- One observable action of the reconnection protocol on the model
session: a best-effort `close()`, or a `connect(...)` with its arguments. -/
inductive ReconnectAction where
  | closeSession
  | connectCall (args : ConnectCall)
deriving DecidableEq

/-- Result of running the reconnection protocol: the outcome (success or
the raised error) together with the ordered trace of model-session
actions. -/
structure ReconnectResult where
  outcome : Except BidiError Unit
  trace : List ReconnectAction

/-- The connect calls of a reconnection trace, in order. -/
def connectCallsOf (t : List ReconnectAction) : List ConnectCall :=
  t.filterMap (fun a =>
    match a with
    | ReconnectAction.connectCall c => some c
    | ReconnectAction.closeSession => none)

/-- Modelled from the spec: the retry loop inside `_reconnect_session` of
the missing module `bidirectional_event_loop.py`. `connect k` is the
behaviour of the k-th `connect` call (counting all calls made so far,
`idx` on entry): `none` means it returns, `some e` means it raises `e`.
`closeB k` is the behaviour of the k-th `close` call; its value is
swallowed (best-effort close). Each attempt closes the existing session,
then connects with the agent's current system prompt, tool specs and
message history; the first attempt that returns ends the loop, a
non-reconnectable error propagates immediately, and when the attempts are
exhausted the last raised error propagates. -/
def reconnectGo (ag : AgentConfig) (connect : Nat → Option BidiError)
    (closeB : Nat → Option BidiError) :
    Nat → Nat → Option BidiError → ReconnectResult
  | 0, _, lastErr =>
      { outcome :=
          match lastErr with
          | some e => Except.error e
          | none => Except.error (BidiError.runtimeError "reconnect loop made no attempts")
        trace := [] }
  | Nat.succ n, idx, _ =>
      let _closeOutcome := closeB idx
      let args : ConnectCall := ⟨ag.system_prompt, ag.tool_specs, ag.messages⟩
      match connect idx with
      | none =>
          { outcome := Except.ok ()
            trace := [ReconnectAction.closeSession, ReconnectAction.connectCall args] }
      | some e =>
          if _is_reconnectable_error e then
            let r := reconnectGo ag connect closeB n (idx + 1) (some e)
            { outcome := r.outcome
              trace := ReconnectAction.closeSession :: ReconnectAction.connectCall args :: r.trace }
          else
            { outcome := Except.error e
              trace := [ReconnectAction.closeSession, ReconnectAction.connectCall args] }

/-- Modelled from the spec: `_reconnect_session` of the missing module
`bidirectional_event_loop.py` — a bounded retry loop of up to
`max_reconnection_attempts` attempts. -/
def _reconnect_session (ag : AgentConfig) (connect : Nat → Option BidiError)
    (closeB : Nat → Option BidiError) : ReconnectResult :=
  reconnectGo ag connect closeB ag.max_reconnection_attempts 0 none

/-- A `current_tool_use` record being assembled by the provider; a record is
complete once it has a name, an identifier and an input. -/
structure ToolUse where
  name : Option String
  toolUseId : Option String
  input : Option String
deriving DecidableEq

/-- A tool-use record is complete when it has name, identifier and input. -/
def toolUseComplete (tu : ToolUse) : Bool :=
  tu.name.isSome && tu.toolUseId.isSome && tu.input.isSome

/-- The tagged union of provider events handled by the event loop:
interruption, tool-use stream, transcript stream, audio stream, and a
catch-all for unrecognized tags. -/
inductive BidiEvent where
  | interruption (reason : String)
  | toolUseStream (current_tool_use : ToolUse)
  | transcriptStream (source : String) (text : String) (is_final : Bool)
  | audioStream (audioData : String) (format : String) (sample_rate : Nat) (channels : Nat)
  | other (tag : String)
deriving DecidableEq

/-- The mutable state of one `BidirectionalConnection`: the active flag, the
interruption flag and its lock, the pending tool queue, the map of pending
tool tasks (embedded as its list of tool-use ids), and the audio output
queue. -/
structure BidirectionalConnection where
  active : Bool
  interrupted : Bool
  lock_held : Bool
  tool_queue : List ToolUse
  pending_tool_tasks : List String
  audio_output_queue : List String
deriving DecidableEq

/-- The state read and written by one dispatch step of the event loop: the
connection record, the agent's conversation history, and the shared output
queue. -/
structure EventLoopState where
  conn : BidirectionalConnection
  messages : List Message
  output_queue : List BidiEvent
deriving DecidableEq

/-- One primitive step performed while dispatching a single model event:
lock transitions, the interruption-state mutations, the tool enqueue, the
history append, and the forward to the output queue. -/
inductive MicroOp where
  | acquireLock
  | releaseLock
  | setInterrupted
  | drainAudioQueue
  | enqueueToolUse (tu : ToolUse)
  | appendUserMessage (text : String)
  | forwardToOutput (e : BidiEvent)
deriving DecidableEq

/-- Effect of one primitive dispatch step on the event-loop state. -/
def applyOp (s : EventLoopState) : MicroOp → EventLoopState
  | MicroOp.acquireLock => { s with conn := { s.conn with lock_held := true } }
  | MicroOp.releaseLock => { s with conn := { s.conn with lock_held := false } }
  | MicroOp.setInterrupted => { s with conn := { s.conn with interrupted := true } }
  | MicroOp.drainAudioQueue => { s with conn := { s.conn with audio_output_queue := [] } }
  | MicroOp.enqueueToolUse tu =>
      { s with conn := { s.conn with tool_queue := s.conn.tool_queue ++ [tu] } }
  | MicroOp.appendUserMessage t => { s with messages := s.messages ++ [Message.mk "user" t] }
  | MicroOp.forwardToOutput e => { s with output_queue := s.output_queue ++ [e] }

/-- Modelled from the spec: the per-event dispatch of `_handle_model_event`
of the missing module `bidirectional_event_loop.py`, written as the list of
primitive steps each event kind performs. An interruption acquires the
interruption lock, sets `interrupted`, drains the audio output queue,
releases the lock, and forwards; a complete tool-use record is enqueued and
the event forwarded (an incomplete one is only forwarded); a final user
transcript appends one user history entry and the event is forwarded (any
other transcript is only forwarded); audio and unknown events are forwarded
unchanged. -/
def stepsFor : BidiEvent → List MicroOp
  | BidiEvent.interruption r =>
      [MicroOp.acquireLock, MicroOp.setInterrupted, MicroOp.drainAudioQueue,
       MicroOp.releaseLock, MicroOp.forwardToOutput (BidiEvent.interruption r)]
  | BidiEvent.toolUseStream tu =>
      (if toolUseComplete tu then [MicroOp.enqueueToolUse tu] else []) ++
        [MicroOp.forwardToOutput (BidiEvent.toolUseStream tu)]
  | BidiEvent.transcriptStream src txt fin =>
      (if src = "user" && fin then [MicroOp.appendUserMessage txt] else []) ++
        [MicroOp.forwardToOutput (BidiEvent.transcriptStream src txt fin)]
  | BidiEvent.audioStream a f r c =>
      [MicroOp.forwardToOutput (BidiEvent.audioStream a f r c)]
  | BidiEvent.other tag => [MicroOp.forwardToOutput (BidiEvent.other tag)]

/-- Modelled from the spec: `_handle_model_event` of the missing module
`bidirectional_event_loop.py` — run the dispatch steps of one event. -/
def _handle_model_event (s : EventLoopState) (e : BidiEvent) : EventLoopState :=
  (stepsFor e).foldl applyOp s

/-- The steps that mutate the interruption state and therefore must run
while the interruption lock is held. -/
def mutatesInterruptionState : MicroOp → Bool
  | MicroOp.setInterrupted => true
  | MicroOp.drainAudioQueue => true
  | _ => false

/-- Run a list of dispatch steps, failing (`none`) if any step that mutates
the interruption state executes while the lock is not held. -/
def runChecked : EventLoopState → List MicroOp → Option EventLoopState
  | s, [] => some s
  | s, op :: rest =>
      if mutatesInterruptionState op && !s.conn.lock_held then none
      else runChecked (applyOp s op) rest

/-- Result of `_handle_connection_error`: the returned value or propagated
error, the connection state afterwards, and how many `connect` calls the
handling made. -/
structure HandleErrorResult where
  handled : Except BidiError Bool
  conn : BidirectionalConnection
  reconnect_connect_calls : Nat

/-- Modelled from the spec: `_handle_connection_error` of the missing
module `bidirectional_event_loop.py`. A non-reconnectable error, or any
error while reconnection is disabled, marks the connection inactive and
returns `false` without touching the model session; otherwise the bounded
reconnection protocol runs: on success return `true` leaving the connection
untouched, on exhaustion mark it inactive and propagate the final error. -/
def _handle_connection_error (ag : AgentConfig) (conn : BidirectionalConnection)
    (connect : Nat → Option BidiError) (closeB : Nat → Option BidiError)
    (err : BidiError) : HandleErrorResult :=
  if _is_reconnectable_error err = false then
    { handled := Except.ok false, conn := { conn with active := false }
      reconnect_connect_calls := 0 }
  else if ag.enable_reconnection = false then
    { handled := Except.ok false, conn := { conn with active := false }
      reconnect_connect_calls := 0 }
  else
    match (_reconnect_session ag connect closeB).outcome with
    | Except.ok _ =>
        { handled := Except.ok true, conn := conn
          reconnect_connect_calls := (connectCallsOf (_reconnect_session ag connect closeB).trace).length }
    | Except.error e =>
        { handled := Except.error e, conn := { conn with active := false }
          reconnect_connect_calls := (connectCallsOf (_reconnect_session ag connect closeB).trace).length }

/-! ### The `BidirectionalAgent` facade, embedded from `agent/agent.py` -/

/-- The facade state the embedded methods read and write: the `_session`
reference (an `Option` over the connection record) and the fields the
session-management methods touch. -/
structure BidirectionalAgentState where
  _session : Option BidirectionalConnection
  system_prompt : Option String
  messages : List Message
  output_queue : List BidiEvent
deriving DecidableEq

/-- A call the facade makes on the connection or the model session:
`startConnection` is `start_bidirectional_connection`, `stopConnection` is
`stop_bidirectional_connection`, and the `send*` actions are the
model-session send methods. -/
inductive FacadeAction where
  | startConnection
  | stopConnection
  | sendTextContent (text : String)
  | sendAudioContent
  | sendImageContent
  | sendInterrupt
deriving DecidableEq

/-- `BidirectionalAgent._validate_active_session`: `some` error when there
is no session or the session is inactive (Python
`not self._session or not self._session.active`), `none` otherwise. -/
def _validate_active_session (a : BidirectionalAgentState) : Option BidiError :=
  match a._session with
  | none => some (BidiError.valueError "No active conversation. Call start() first.")
  | some s =>
      if s.active = false then
        some (BidiError.valueError "No active conversation. Call start() first.")
      else none

/-- Result of `BidirectionalAgent.start`: the new facade state or the
raised error, with the trace of connection-level actions performed. -/
structure StartResult where
  result : Except BidiError BidirectionalAgentState
  actions : List FacadeAction

/-- `BidirectionalAgent.start`: raises `ValueError` when
`self._session and self._session.active` (a session exists and is active);
otherwise runs `start_bidirectional_connection`, whose outcome
`connectResult` either yields the new session stored in `_session` or an
error that propagates. -/
def start (a : BidirectionalAgentState)
    (connectResult : Except BidiError BidirectionalConnection) : StartResult :=
  if (match a._session with | some s => s.active | none => false) = true then
    { result := Except.error (BidiError.valueError "Conversation already active. Call end() first.")
      actions := [] }
  else
    match connectResult with
    | Except.ok sess =>
        { result := Except.ok { a with _session := some sess }
          actions := [FacadeAction.startConnection] }
    | Except.error e =>
        { result := Except.error e, actions := [FacadeAction.startConnection] }

/-- The runtime shapes `BidirectionalAgent.send` dispatches on: a Python
string, a dict (embedded by its key list; dispatch only inspects keys), or
any other object. -/
inductive InputData where
  | text (s : String)
  | dict (keys : List String)
  | obj
deriving DecidableEq

/-- The `ValueError` message of `BidirectionalAgent.send` for an
unrecognized input shape, verbatim from the source. -/
def send_error_message : String :=
  "Input must be either a string (text), AudioInputEvent (dict with audioData, format, sampleRate, channels), or ImageInputEvent (dict with imageData, mimeType, encoding)"

/-- `BidirectionalAgent.send`: validates the active session, then
dispatches — a string goes to `send_text_content`, a dict containing the
key `audioData` to `send_audio_content`, a dict containing the key
`imageData` to `send_image_content`, and anything else raises `ValueError`
with `send_error_message`. -/
def send (a : BidirectionalAgentState) (input : InputData) :
    Except BidiError FacadeAction :=
  match _validate_active_session a with
  | some err => Except.error err
  | none =>
      match input with
      | InputData.text s => Except.ok (FacadeAction.sendTextContent s)
      | InputData.dict keys =>
          if "audioData" ∈ keys then Except.ok FacadeAction.sendAudioContent
          else if "imageData" ∈ keys then Except.ok FacadeAction.sendImageContent
          else Except.error (BidiError.valueError send_error_message)
      | InputData.obj => Except.error (BidiError.valueError send_error_message)

/-- `BidirectionalAgent.interrupt`: validates the active session, then
calls `send_interrupt` on the model session. -/
def interrupt (a : BidirectionalAgentState) : Except BidiError FacadeAction :=
  match _validate_active_session a with
  | some err => Except.error err
  | none => Except.ok FacadeAction.sendInterrupt

/-- Result of `BidirectionalAgent.end`: the facade state afterwards and the
teardown actions performed. -/
structure EndResult where
  state : BidirectionalAgentState
  actions : List FacadeAction
deriving DecidableEq

/-- `BidirectionalAgent.end` (named `agent_end` because `end` is reserved):
when a session exists, `stop_bidirectional_connection` runs and `_session`
is cleared; when none does, nothing happens. -/
def agent_end (a : BidirectionalAgentState) : EndResult :=
  match a._session with
  | some _ =>
      { state := { a with _session := none }, actions := [FacadeAction.stopConnection] }
  | none => { state := a, actions := [] }

/-! ### The `receive()` polling loop, embedded from `agent/agent.py` -/

/-- The timeout, in seconds, of each `asyncio.wait_for` poll of the output
queue inside `BidirectionalAgent.receive` (`timeout=0.1` in the source). -/
def receive_poll_timeout : ℚ := 1 / 10

/-- Outcome of one bounded-timeout poll of the output queue: an event
arrived within the timeout, or the poll timed out. -/
inductive PollResult where
  | got (e : BidiEvent)
  | timedOut
deriving DecidableEq

/-- `BidirectionalAgent.receive`, embedded as a fuel-indexed loop.
`st i` is the session state observed at the i-th iteration of the `while`
condition (`none` when `self._session` is cleared, `some b` when a session
with `active = b` exists); `polls i` is the outcome of the i-th poll. Each
iteration re-checks `self._session and self._session.active`, stops when it
fails, otherwise polls with a bounded timeout and yields the event if one
arrived (a timeout just continues). -/
def receiveRun (st : Nat → Option Bool) (polls : Nat → PollResult) :
    Nat → Nat → List BidiEvent
  | 0, _ => []
  | Nat.succ fuel, i =>
      match st i with
      | some true =>
          match polls i with
          | PollResult.got e => e :: receiveRun st polls fuel (i + 1)
          | PollResult.timedOut => receiveRun st polls fuel (i + 1)
      | _ => []

/-- The events the first `k` polls deliver, in order (the expected yield of
`receive` over `k` active iterations). -/
def pollYields (polls : Nat → PollResult) : Nat → Nat → List BidiEvent
  | _, 0 => []
  | i, Nat.succ k =>
      match polls i with
      | PollResult.got e => e :: pollYields polls (i + 1) k
      | PollResult.timedOut => pollYields polls (i + 1) k

/-! ### Expected trace shape of the reconnection protocol -/

/-- The trace a run of the reconnection protocol is expected to leave: one
`closeSession` immediately before each `connectCall`. -/
def pairTrace : List ConnectCall → List ReconnectAction
  | [] => []
  | c :: cs =>
      ReconnectAction.closeSession :: ReconnectAction.connectCall c :: pairTrace cs

/-! ### Concrete states used to instantiate the theorems -/

/-- A connection record whose `active` flag is set. -/
def connActive : BidirectionalConnection := ⟨true, false, false, [], [], []⟩

/-- A connection record whose `active` flag is cleared. -/
def connInactive : BidirectionalConnection := ⟨false, false, false, [], [], []⟩

/-- A facade state holding an active session. -/
def agentActive : BidirectionalAgentState := ⟨some connActive, none, [], []⟩

/-- A facade state holding no session. -/
def agentIdle : BidirectionalAgentState := ⟨none, none, [], []⟩

/-- A facade state holding an inactive session record. -/
def agentInactive : BidirectionalAgentState := ⟨some connInactive, none, [], []⟩

/-- An event-loop state with an active connection, empty history and empty
output queue. -/
def s0 : EventLoopState := ⟨connActive, [], []⟩

/-- An agent configuration with reconnection enabled and two attempts. -/
def agW : AgentConfig := ⟨some "test prompt", [], [], 2, true⟩

/-- An agent configuration with reconnection disabled. -/
def agDisabledW : AgentConfig := ⟨some "test prompt", [], [], 3, false⟩

/-- A model whose `connect` raises `ConnectionError` on every call. -/
def connectFailW : Nat → Option BidiError := fun _ => some (BidiError.connectionError "lost")

/-- A model whose `close` never raises. -/
def closeW : Nat → Option BidiError := fun _ => none

/-- A session-state trace that is active for two `receive` iterations and
inactive afterwards. -/
def stW : Nat → Option Bool := fun i => if i < 2 then some true else some false

/-- A poll trace delivering one event on the first poll and timing out
afterwards. -/
def pollsW : Nat → PollResult := fun i =>
  if i = 0 then PollResult.got (BidiEvent.other "tick") else PollResult.timedOut

/-- A dict payload carrying all three image fields and the audio field. -/
def imageAudioKeys : List String :=
  ["audioData", "format", "sampleRate", "channels", "imageData", "mimeType", "encoding"]

/-! ## Theorems -/

/-- C1: `_is_reconnectable_error e` is true if and only if `e` is a
connection-class transport failure (connection lost, connection reset,
broken pipe); it is false for the application-level errors (invalid value,
generic runtime error). -/
theorem C1_is_reconnectable_error_characterization :
    (∀ e : BidiError, _is_reconnectable_error e = true ↔
      ((∃ m, e = BidiError.connectionError m) ∨ (∃ m, e = BidiError.connectionResetError m) ∨
        (∃ m, e = BidiError.brokenPipeError m)))
    ∧ (∀ m, _is_reconnectable_error (BidiError.valueError m) = false)
    ∧ (∀ m, _is_reconnectable_error (BidiError.runtimeError m) = false) := by
  refine ⟨fun e => ?_, fun _ => rfl, fun _ => rfl⟩
  cases e <;> simp [_is_reconnectable_error]

/-- C5: dispatching an interruption event sets the connection's
`interrupted` flag, clears the audio output queue, forwards the event
unmodified to the output queue, and performs the interruption-state
mutations only while the interruption lock is held (`runChecked` accepts
the dispatch steps). -/
theorem C5_interruption_dispatch (s : EventLoopState) (reason : String) :
    (_handle_model_event s (BidiEvent.interruption reason)).conn.interrupted = true
    ∧ (_handle_model_event s (BidiEvent.interruption reason)).conn.audio_output_queue = []
    ∧ (_handle_model_event s (BidiEvent.interruption reason)).output_queue
        = s.output_queue ++ [BidiEvent.interruption reason]
    ∧ runChecked s (stepsFor (BidiEvent.interruption reason))
        = some (_handle_model_event s (BidiEvent.interruption reason)) := by
  refine ⟨rfl, rfl, rfl, ?_⟩
  simp [runChecked, stepsFor, applyOp, mutatesInterruptionState, _handle_model_event]

/-- C4: dispatching a transcript event appends exactly one
`\x7brole: "user", content: text\x7d` entry to the conversation history when the
source is `"user"` and the transcript is final, leaves the history
unchanged when the source is `"assistant"`, and in every case forwards the
event to the output queue. -/
theorem C4_transcript_dispatch (s : EventLoopState) (src txt : String) (fin : Bool) :
    (src = "user" → fin = true →
      (_handle_model_event s (BidiEvent.transcriptStream src txt fin)).messages
        = s.messages ++ [Message.mk "user" txt])
    ∧ (src = "assistant" →
      (_handle_model_event s (BidiEvent.transcriptStream src txt fin)).messages = s.messages)
    ∧ (_handle_model_event s (BidiEvent.transcriptStream src txt fin)).output_queue
        = s.output_queue ++ [BidiEvent.transcriptStream src txt fin] := by
  refine ⟨?_, ?_, ?_⟩
  · intro h1 h2
    subst h1; subst h2
    rfl
  · intro h1
    subst h1
    rfl
  · simp only [_handle_model_event, stepsFor]
    cases hc : (decide (src = "user") && fin) <;> simp [hc, applyOp]

/-- C4 witness: dispatching the final user transcript "Hello world" into an
empty history yields exactly one user entry. -/
theorem C4_transcript_dispatch_witness :
    (_handle_model_event s0 (BidiEvent.transcriptStream "user" "Hello world" true)).messages
      = [Message.mk "user" "Hello world"] := by
  have h := (C4_transcript_dispatch s0 "user" "Hello world" true).1 rfl rfl
  simpa [s0] using h

/-- C6: usage errors are synchronous `ValueError`s — `start` while a
session is active raises without performing any connection action, and
`send`/`interrupt` with no active session (no session, or an inactive one)
raise without reaching the model session. -/
theorem C6_usage_errors (a : BidirectionalAgentState) (s : BidirectionalConnection)
    (cr : Except BidiError BidirectionalConnection) (input : InputData) :
    (a._session = some s → s.active = true →
      (start a cr).result
        = Except.error (BidiError.valueError "Conversation already active. Call end() first.")
      ∧ (start a cr).actions = [])
    ∧ ((a._session = none ∨ ∃ s2, a._session = some s2 ∧ s2.active = false) →
      send a input
        = Except.error (BidiError.valueError "No active conversation. Call start() first.")
      ∧ interrupt a
        = Except.error (BidiError.valueError "No active conversation. Call start() first.")) := by
  constructor
  · intro h1 h2
    constructor <;> simp [start, h1, h2]
  · intro h
    have hv : _validate_active_session a
        = some (BidiError.valueError "No active conversation. Call start() first.") := by
      rcases h with h | ⟨s2, hs2, hact⟩
      · simp [_validate_active_session, h]
      · simp [_validate_active_session, hs2, hact]
    constructor <;> simp [send, interrupt, hv]

/-- C6 witness: starting an already-active agent raises the invalid-state
error, and sending with no session raises the invalid-state error. -/
theorem C6_usage_errors_witness :
    (start agentActive (Except.ok connActive)).result
      = Except.error (BidiError.valueError "Conversation already active. Call end() first.")
    ∧ send agentIdle (InputData.text "hi")
      = Except.error (BidiError.valueError "No active conversation. Call start() first.") :=
  ⟨((C6_usage_errors agentActive connActive (Except.ok connActive) (InputData.text "hi")).1
      rfl rfl).1,
   ((C6_usage_errors agentIdle connActive (Except.ok connActive) (InputData.text "hi")).2
      (Or.inl rfl)).1⟩

/-- C7 counterexample: a dict payload carrying all three image fields
(`imageData`, `mimeType`, `encoding`) but also an `audioData` field is sent
as audio content, not image content, because `send` dispatches on the
`audioData` key first — contradicting the claim that every payload carrying
the image fields is sent as image content. -/
theorem C7_counterexample :
    ("imageData" ∈ imageAudioKeys ∧ "mimeType" ∈ imageAudioKeys ∧ "encoding" ∈ imageAudioKeys)
    ∧ send agentActive (InputData.dict imageAudioKeys) = Except.ok FacadeAction.sendAudioContent
    ∧ send agentActive (InputData.dict imageAudioKeys)
        ≠ Except.ok FacadeAction.sendImageContent := by
  refine ⟨by decide, rfl, ?_⟩
  intro h
  rw [show send agentActive (InputData.dict imageAudioKeys)
        = Except.ok FacadeAction.sendAudioContent from rfl] at h
  simp at h

/-- C7 (amended): during an active session, a string is sent as text
content; a dict containing the key `audioData` is sent as audio content
(even when image fields are also present); a dict without `audioData`
containing the key `imageData` is sent as image content; a dict with
neither key, or a non-string non-dict object, raises `ValueError` with the
message naming the three accepted shapes. -/
theorem C7_send_dispatch (a : BidirectionalAgentState) (s : BidirectionalConnection)
    (hs : a._session = some s) (hact : s.active = true) :
    (∀ txt, send a (InputData.text txt) = Except.ok (FacadeAction.sendTextContent txt))
    ∧ (∀ keys, "audioData" ∈ keys →
        send a (InputData.dict keys) = Except.ok FacadeAction.sendAudioContent)
    ∧ (∀ keys, "audioData" ∉ keys → "imageData" ∈ keys →
        send a (InputData.dict keys) = Except.ok FacadeAction.sendImageContent)
    ∧ (∀ keys, "audioData" ∉ keys → "imageData" ∉ keys →
        send a (InputData.dict keys) = Except.error (BidiError.valueError send_error_message))
    ∧ send a InputData.obj = Except.error (BidiError.valueError send_error_message) := by
  have hv : _validate_active_session a = none := by
    simp [_validate_active_session, hs, hact]
  refine ⟨fun txt => by simp [send, hv], fun keys hk => by simp [send, hv, hk],
    fun keys hk1 hk2 => by simp [send, hv, hk1, hk2],
    fun keys hk1 hk2 => by simp [send, hv, hk1, hk2], by simp [send, hv]⟩

/-- C7 witness: during an active session a pure image payload is sent as
image content. -/
theorem C7_send_dispatch_witness :
    send agentActive (InputData.dict ["imageData", "mimeType", "encoding"])
      = Except.ok FacadeAction.sendImageContent :=
  (C7_send_dispatch agentActive connActive rfl rfl).2.2.1
    ["imageData", "mimeType", "encoding"] (by decide) (by decide)

/-- C9: `end` is idempotent — with no session it is a no-op performing no
teardown action; with a session it stops the connection and clears the
session reference; running it twice leaves the same state as running it
once, and the second run performs no action. -/
theorem C9_end_idempotent (a : BidirectionalAgentState) :
    (a._session = none → agent_end a = ⟨a, []⟩)
    ∧ (∀ s, a._session = some s →
        (agent_end a).state = { a with _session := none }
        ∧ (agent_end a).actions = [FacadeAction.stopConnection])
    ∧ (agent_end (agent_end a).state).state = (agent_end a).state
    ∧ (agent_end (agent_end a).state).actions = [] := by
  refine ⟨fun h => by simp [agent_end, h], fun s hs => by simp [agent_end, hs], ?_, ?_⟩ <;>
    cases h : a._session <;> simp [agent_end, h]

/-- C9 witness: ending an idle agent is a no-op with no teardown actions. -/
theorem C9_end_idempotent_witness : agent_end agentIdle = ⟨agentIdle, []⟩ :=
  (C9_end_idempotent agentIdle).1 rfl

/-- C10: when a session object exists but is inactive, `start` succeeds
without an intervening `end`, replaces the session reference with the fresh
connection, and performs no teardown of the old session (its only action is
starting the new connection). -/
theorem C10_start_with_inactive_session (a : BidirectionalAgentState)
    (s newSess : BidirectionalConnection) (hs : a._session = some s)
    (hin : s.active = false) :
    (start a (Except.ok newSess)).result = Except.ok { a with _session := some newSess }
    ∧ (start a (Except.ok newSess)).actions = [FacadeAction.startConnection]
    ∧ FacadeAction.stopConnection ∉ (start a (Except.ok newSess)).actions := by
  refine ⟨?_, ?_, ?_⟩ <;> simp [start, hs, hin]

/-- C10 witness: starting over an inactive session record succeeds and
installs the fresh connection. -/
theorem C10_start_with_inactive_session_witness :
    (start agentInactive (Except.ok connActive)).result
      = Except.ok { agentInactive with _session := some connActive } :=
  (C10_start_with_inactive_session agentInactive connInactive connActive rfl rfl).1

/-- While the session stays active for `k` iterations and then stops being
active, `receiveRun` with any sufficient fuel yields exactly the events the
first `k` polls deliver. -/
theorem receiveRun_eq_pollYields (st : Nat → Option Bool) (polls : Nat → PollResult) :
    ∀ (k i fuel : Nat), k < fuel →
      (∀ j, j < k → st (i + j) = some true) → st (i + k) ≠ some true →
      receiveRun st polls fuel i = pollYields polls i k := by
  intro k
  induction k with
  | zero =>
    intro i fuel hf _ h2
    cases fuel with
    | zero => omega
    | succ f =>
      have h2' : st i ≠ some true := by simpa using h2
      cases hst : st i with
      | none => simp [receiveRun, hst, pollYields]
      | some b =>
        cases b with
        | false => simp [receiveRun, hst, pollYields]
        | true => exact absurd hst h2'
  | succ k ih =>
    intro i fuel hf h1 h2
    cases fuel with
    | zero => omega
    | succ f =>
      have h0 : st i = some true := by simpa using h1 0 (Nat.succ_pos k)
      have hrest : ∀ j, j < k → st (i + 1 + j) = some true := by
        intro j hj
        have h := h1 (j + 1) (by omega)
        have he : i + (j + 1) = i + 1 + j := by omega
        rwa [he] at h
      have hstop : st (i + 1 + k) ≠ some true := by
        have he : i + 1 + k = i + (k + 1) := by omega
        rw [he]; exact h2
      have hih := ih (i + 1) f (by omega) hrest hstop
      cases hp : polls i with
      | got e => simp [receiveRun, h0, hp, pollYields, hih]
      | timedOut => simp [receiveRun, h0, hp, pollYields, hih]

/-- Every event `pollYields` yields comes from a `got` poll at an index
within the active window. -/
theorem pollYields_mem (polls : Nat → PollResult) :
    ∀ (k i : Nat) (e : BidiEvent), e ∈ pollYields polls i k →
      ∃ j, j < k ∧ polls (i + j) = PollResult.got e := by
  intro k
  induction k with
  | zero => intro i e h; simp [pollYields] at h
  | succ k ih =>
    intro i e h
    cases hp : polls i with
    | got e0 =>
      rw [pollYields, hp] at h
      rcases List.mem_cons.mp h with h | h
      · exact ⟨0, Nat.succ_pos k, by simpa [h] using hp⟩
      · obtain ⟨j, hj, hpj⟩ := ih (i + 1) e h
        refine ⟨j + 1, by omega, ?_⟩
        have he : i + (j + 1) = i + 1 + j := by omega
        rwa [he]
    | timedOut =>
      rw [pollYields, hp] at h
      obtain ⟨j, hj, hpj⟩ := ih (i + 1) e h
      refine ⟨j + 1, by omega, ?_⟩
      have he : i + (j + 1) = i + 1 + j := by omega
      rwa [he]

/-- C8: while the session exists and is active for the first `k` loop
iterations and not afterwards, `receive` yields exactly the events polled
during those iterations regardless of how much further it could run (the
loop terminates once the session is inactive or cleared); every yielded
event was pulled at an iteration where the session was active; and each
poll's wait is the bounded 0.1-second timeout. -/
theorem C8_receive_bounded_polling (st : Nat → Option Bool) (polls : Nat → PollResult)
    (k : Nat) (hact : ∀ i, i < k → st i = some true) (hstop : st k ≠ some true) :
    (∀ fuel, k < fuel → receiveRun st polls fuel 0 = pollYields polls 0 k)
    ∧ (∀ e, e ∈ receiveRun st polls (k + 1) 0 →
        ∃ i, i < k ∧ st i = some true ∧ polls i = PollResult.got e)
    ∧ receive_poll_timeout = 1 / 10 := by
  have heq : ∀ fuel, k < fuel → receiveRun st polls fuel 0 = pollYields polls 0 k := by
    intro fuel hf
    exact receiveRun_eq_pollYields st polls k 0 fuel hf
      (fun j hj => by simpa using hact j hj) (by simpa using hstop)
  refine ⟨heq, ?_, rfl⟩
  intro e he
  rw [heq (k + 1) (Nat.lt_succ_self k)] at he
  obtain ⟨j, hj, hpj⟩ := pollYields_mem polls k 0 e he
  exact ⟨j, hj, hact j hj, by simpa using hpj⟩

/-- C8 witness: with a session active for two iterations and one delivered
event, `receive` yields exactly that event and stops. -/
theorem C8_receive_bounded_polling_witness :
    receiveRun stW pollsW 3 0 = pollYields pollsW 0 2 :=
  (C8_receive_bounded_polling stW pollsW 2 (by decide) (by decide)).1 3 (by decide)

/-- The reconnection loop is insensitive to the behaviour of `close`:
errors raised while closing the stale session are swallowed. -/
theorem reconnectGo_close_swallowed (ag : AgentConfig) (connect : Nat → Option BidiError) :
    ∀ (n idx : Nat) (le : Option BidiError) (closeB1 closeB2 : Nat → Option BidiError),
      reconnectGo ag connect closeB1 n idx le = reconnectGo ag connect closeB2 n idx le := by
  intro n
  induction n with
  | zero => intro idx le c1 c2; rfl
  | succ n ih =>
    intro idx le c1 c2
    cases hc : connect idx with
    | none => simp [reconnectGo, hc]
    | some e =>
      by_cases hr : _is_reconnectable_error e = true
      · simp [reconnectGo, hc, hr, ih (idx + 1) (some e) c1 c2]
      · simp [reconnectGo, hc, hr]

/-- Every trace the reconnection loop leaves alternates one `closeSession`
immediately before each `connectCall`: each attempt first closes the
existing model session and then connects. -/
theorem reconnectGo_trace_shape (ag : AgentConfig) (connect closeB : Nat → Option BidiError) :
    ∀ (n idx : Nat) (le : Option BidiError),
      (reconnectGo ag connect closeB n idx le).trace
        = pairTrace (connectCallsOf (reconnectGo ag connect closeB n idx le).trace) := by
  intro n
  induction n with
  | zero => intro idx le; simp [reconnectGo, connectCallsOf, pairTrace]
  | succ n ih =>
    intro idx le
    cases hc : connect idx with
    | none => simp [reconnectGo, hc, connectCallsOf, pairTrace]
    | some e =>
      by_cases hr : _is_reconnectable_error e = true
      · simp only [reconnectGo, hc, hr, if_pos]
        simp [connectCallsOf, pairTrace]
        simpa [connectCallsOf] using ih (idx + 1) (some e)
      · simp [reconnectGo, hc, hr, connectCallsOf, pairTrace]

/-- Every `connect` call the reconnection loop makes passes the agent's
current system prompt, full tool-spec list and full message history. -/
theorem reconnectGo_connect_args (ag : AgentConfig) (connect closeB : Nat → Option BidiError) :
    ∀ (n idx : Nat) (le : Option BidiError) (c : ConnectCall),
      c ∈ connectCallsOf (reconnectGo ag connect closeB n idx le).trace →
      c = ConnectCall.mk ag.system_prompt ag.tool_specs ag.messages := by
  intro n
  induction n with
  | zero => intro idx le c h; simp [reconnectGo, connectCallsOf] at h
  | succ n ih =>
    intro idx le c h
    cases hc : connect idx with
    | none =>
      rw [reconnectGo] at h
      simp [hc, connectCallsOf] at h
      exact h
    | some e =>
      by_cases hr : _is_reconnectable_error e = true
      · rw [reconnectGo] at h
        simp [hc, hr, connectCallsOf] at h
        rcases h with h | h
        · exact h
        · exact ih (idx + 1) (some e) c (by simpa [connectCallsOf] using h)
      · rw [reconnectGo] at h
        simp [hc, hr, connectCallsOf] at h
        exact h

/-- When every remaining attempt's `connect` raises a reconnectable error,
the loop makes exactly `n` `connect` calls and raises the error of the last
attempt. -/
theorem reconnectGo_all_fail (ag : AgentConfig) (connect closeB : Nat → Option BidiError) :
    ∀ (n idx : Nat) (le : Option BidiError), 1 ≤ n →
      (∀ j, j < n → ∃ e, connect (idx + j) = some e ∧ _is_reconnectable_error e = true) →
      (connectCallsOf (reconnectGo ag connect closeB n idx le).trace).length = n
      ∧ ∃ e, connect (idx + n - 1) = some e
          ∧ (reconnectGo ag connect closeB n idx le).outcome = Except.error e := by
  intro n
  induction n with
  | zero => intro idx le h; omega
  | succ n ih =>
    intro idx le _ hall
    obtain ⟨e0, he0, hr0⟩ := hall 0 (Nat.succ_pos n)
    rw [Nat.add_zero] at he0
    cases n with
    | zero =>
      refine ⟨by simp [reconnectGo, he0, hr0, connectCallsOf], e0, by simpa using he0, ?_⟩
      simp [reconnectGo, he0, hr0]
    | succ m =>
      have hall' : ∀ j, j < m + 1 → ∃ e, connect (idx + 1 + j) = some e
          ∧ _is_reconnectable_error e = true := by
        intro j hj
        have h := hall (j + 1) (by omega)
        have he : idx + (j + 1) = idx + 1 + j := by omega
        rwa [he] at h
      obtain ⟨hlen, e1, he1, hout⟩ := ih (idx + 1) (some e0) (by omega) hall'
      have hidx : idx + 1 + (m + 1) - 1 = idx + (m + 1 + 1) - 1 := by omega
      rw [hidx] at he1
      refine ⟨?_, e1, he1, ?_⟩
      · rw [reconnectGo]
        simp only [he0, hr0, if_pos]
        simpa [connectCallsOf] using hlen
      · rw [reconnectGo]
        simp only [he0, hr0, if_pos]
        exact hout

/-- When the `k`-th `connect` call (0-indexed, `k` within the attempt
budget) returns and every earlier one raises a reconnectable error, the
loop makes exactly `k + 1` `connect` calls and succeeds. -/
theorem reconnectGo_first_success (ag : AgentConfig) (connect closeB : Nat → Option BidiError) :
    ∀ (k n idx : Nat) (le : Option BidiError), k < n → connect (idx + k) = none →
      (∀ j, j < k → ∃ e, connect (idx + j) = some e ∧ _is_reconnectable_error e = true) →
      (connectCallsOf (reconnectGo ag connect closeB n idx le).trace).length = k + 1
      ∧ (reconnectGo ag connect closeB n idx le).outcome = Except.ok () := by
  intro k
  induction k with
  | zero =>
    intro n idx le hkn hnone _
    cases n with
    | zero => omega
    | succ m =>
      rw [Nat.add_zero] at hnone
      exact ⟨by simp [reconnectGo, hnone, connectCallsOf], by simp [reconnectGo, hnone]⟩
  | succ k ih =>
    intro n idx le hkn hnone hall
    cases n with
    | zero => omega
    | succ m =>
      obtain ⟨e0, he0, hr0⟩ := hall 0 (Nat.succ_pos k)
      rw [Nat.add_zero] at he0
      have hnone' : connect (idx + 1 + k) = none := by
        have he : idx + (k + 1) = idx + 1 + k := by omega
        rwa [he] at hnone
      have hall' : ∀ j, j < k → ∃ e, connect (idx + 1 + j) = some e
          ∧ _is_reconnectable_error e = true := by
        intro j hj
        have h := hall (j + 1) (by omega)
        have he : idx + (j + 1) = idx + 1 + j := by omega
        rwa [he] at h
      obtain ⟨hlen, hout⟩ := ih m (idx + 1) (some e0) (by omega) hnone' hall'
      constructor
      · rw [reconnectGo]
        simp only [he0, hr0, if_pos]
        simpa [connectCallsOf] using hlen
      · rw [reconnectGo]
        simp only [he0, hr0, if_pos]
        exact hout

/-- C2: with `max_reconnection_attempts = N ≥ 1`, the reconnection protocol
calls `connect` exactly `N` times and raises the `N`-th attempt's error
when every attempt raises a reconnectable error; it calls `connect` exactly
`k + 1` times and succeeds when call `k` (0-indexed) is the first to
return; every `connect` call passes the agent's current system prompt, full
tool-spec list and full message history; each attempt closes the existing
session immediately before its `connect` call; and errors raised by `close`
are swallowed (the run is independent of the close behaviour). -/
theorem C2_reconnect_session_protocol (ag : AgentConfig)
    (connect closeB : Nat → Option BidiError) (N : Nat) (hN : 1 ≤ N)
    (hmax : ag.max_reconnection_attempts = N) :
    ((∀ j, j < N → ∃ e, connect j = some e ∧ _is_reconnectable_error e = true) →
      (connectCallsOf (_reconnect_session ag connect closeB).trace).length = N
      ∧ ∃ e, connect (N - 1) = some e
          ∧ (_reconnect_session ag connect closeB).outcome = Except.error e)
    ∧ (∀ k, k < N → connect k = none →
        (∀ j, j < k → ∃ e, connect j = some e ∧ _is_reconnectable_error e = true) →
        (connectCallsOf (_reconnect_session ag connect closeB).trace).length = k + 1
        ∧ (_reconnect_session ag connect closeB).outcome = Except.ok ())
    ∧ (∀ c, c ∈ connectCallsOf (_reconnect_session ag connect closeB).trace →
        c = ConnectCall.mk ag.system_prompt ag.tool_specs ag.messages)
    ∧ (_reconnect_session ag connect closeB).trace
        = pairTrace (connectCallsOf (_reconnect_session ag connect closeB).trace)
    ∧ (∀ closeB2, _reconnect_session ag connect closeB
        = _reconnect_session ag connect closeB2) := by
  unfold _reconnect_session
  rw [hmax]
  refine ⟨?_, ?_, ?_, ?_, ?_⟩
  · intro hall
    have h := reconnectGo_all_fail ag connect closeB N 0 none hN
      (fun j hj => by simpa using hall j hj)
    simpa using h
  · intro k hk hnone hall
    have h := reconnectGo_first_success ag connect closeB k N 0 none hk
      (by simpa using hnone) (fun j hj => by simpa using hall j hj)
    simpa using h
  · exact fun c hc => reconnectGo_connect_args ag connect closeB N 0 none c hc
  · exact reconnectGo_trace_shape ag connect closeB N 0 none
  · intro closeB2
    rw [reconnectGo_close_swallowed ag connect N 0 none closeB closeB2]

/-- C2 witness: with two attempts and a `connect` that always raises
`ConnectionError`, the protocol makes exactly two `connect` calls. -/
theorem C2_reconnect_session_protocol_witness :
    (connectCallsOf (_reconnect_session agW connectFailW closeW).trace).length = 2 :=
  ((C2_reconnect_session_protocol agW connectFailW closeW 2 (by decide) rfl).1
    (fun _ _ => ⟨BidiError.connectionError "lost", rfl, rfl⟩)).1

/-- C3: `_handle_connection_error` returns `false`, marks the connection
inactive and makes no `connect` call when the error is not reconnectable or
reconnection is disabled; when the error is reconnectable and reconnection
is enabled it runs the reconnection protocol — on success it returns `true`
leaving the connection untouched (so `active` stays true), and on
exhaustion it propagates the final error and marks the connection
inactive. -/
theorem C3_handle_connection_error_cases (ag : AgentConfig)
    (conn : BidirectionalConnection) (connect closeB : Nat → Option BidiError)
    (err : BidiError) :
    ((_is_reconnectable_error err = false ∨ ag.enable_reconnection = false) →
      (_handle_connection_error ag conn connect closeB err).handled = Except.ok false
      ∧ (_handle_connection_error ag conn connect closeB err).conn.active = false
      ∧ (_handle_connection_error ag conn connect closeB err).reconnect_connect_calls = 0)
    ∧ (_is_reconnectable_error err = true → ag.enable_reconnection = true →
      ((_reconnect_session ag connect closeB).outcome = Except.ok () →
        (_handle_connection_error ag conn connect closeB err).handled = Except.ok true
        ∧ (_handle_connection_error ag conn connect closeB err).conn = conn)
      ∧ (∀ e, (_reconnect_session ag connect closeB).outcome = Except.error e →
        (_handle_connection_error ag conn connect closeB err).handled = Except.error e
        ∧ (_handle_connection_error ag conn connect closeB err).conn.active = false)) := by
  constructor
  · intro h
    rcases h with h | h
    · refine ⟨?_, ?_, ?_⟩ <;> simp [_handle_connection_error, h]
    · by_cases hr : _is_reconnectable_error err = false
      · refine ⟨?_, ?_, ?_⟩ <;> simp [_handle_connection_error, hr]
      · refine ⟨?_, ?_, ?_⟩ <;> simp [_handle_connection_error, hr, h]
  · intro hr he
    constructor
    · intro hok
      constructor <;> simp [_handle_connection_error, hr, he, hok]
    · intro e herr
      constructor <;> simp [_handle_connection_error, hr, he, herr]

/-- C3 witness: a reconnectable error with reconnection disabled is not
handled and deactivates the connection. -/
theorem C3_handle_connection_error_cases_witness :
    (_handle_connection_error agDisabledW connActive connectFailW closeW
      (BidiError.connectionError "lost")).handled = Except.ok false :=
  ((C3_handle_connection_error_cases agDisabledW connActive connectFailW closeW
    (BidiError.connectionError "lost")).1 (Or.inr rfl)).1

end BidiStreaming
